import Mathlib

/-!
Verification of the topic-summary resolver and instruction-retrieval
operations of the wiki MCP server (`src/main.py`).

The external encyclopedia lookup service is modelled abstractly: a
`WikiService` supplies, for each topic, the outcome of the
`wikipedia.summary` call and of the `wikipedia.page` call.  Each call can
succeed, raise a disambiguation error carrying candidate options, raise a
page-not-found error, or fail with any other error carrying a message.
`fetch_wikipedia_summary` is translated from the Python source together
with the trace of lookup-service calls it performs, so that frame claims
about the number of outbound calls can be stated.
-/

/-- Outcome of one call to the wikipedia library: success, a
`DisambiguationError` carrying the candidate options, a `PageError`, or
any other exception carrying its message text (`str(e)`). -/
inductive WikiOutcome (α : Type) where
  | ok (val : α)
  | disambiguation (options : List String)
  | pageError
  | otherError (msg : String)
deriving Repr, DecidableEq

/-- The page record returned by `wikipedia.page`; only the outbound link
list is consumed by the resolver. -/
structure WikiPage where
  links : List String
deriving Repr, DecidableEq

/-- Abstract model of the wikipedia lookup service: the behaviour of
`wikipedia.summary(topic, sentences, auto_suggest, redirect)` and of
`wikipedia.page(topic, auto_suggest, redirect)`. -/
structure WikiService where
  summary : String → Nat → Bool → Bool → WikiOutcome String
  page : String → Bool → Bool → WikiOutcome WikiPage

/-- One outbound network call to the lookup service, with the arguments
the resolver passed. -/
inductive WikiCall where
  | summaryCall (topic : String) (sentences : Nat) (autoSuggest redirect : Bool)
  | pageCall (topic : String) (autoSuggest redirect : Bool)
deriving Repr, DecidableEq

/-- Python's `sep.join(l)`: the elements of `l` interleaved with `sep`,
empty when `l` is empty. -/
def pyJoin (sep : String) : List String → String
  | [] => ""
  | x :: xs => xs.foldl (fun acc y => acc ++ sep ++ y) x

/-- The message built by the `DisambiguationError` handler in
`fetch_wikipedia_summary` (src/main.py line 132):
`"Topic '{topic}' is ambiguous. Possible options:\n" + "\n".join(e.options[:10])`. -/
def ambiguousMsg (topic : String) (options : List String) : String :=
  "Topic '" ++ topic ++ "' is ambiguous. Possible options:\n" ++
    pyJoin "\n" (options.take 10)

/-- The message built by the `PageError` handler (src/main.py line 134). -/
def notFoundMsg (topic : String) : String :=
  "No Wikipedia page found for topic '" ++ topic ++ "'."

/-- The message of the generic exception re-raised by the final handler
(src/main.py line 136). -/
def wrappedErrMsg (msg : String) : String :=
  "Error fetching Wikipedia data: " ++ msg

/-- Translation of `fetch_wikipedia_summary` (src/main.py lines 107-136),
paired with the trace of lookup-service calls the invocation performs.
The `try` block covers both lookup calls and the formatting loop; an
exception from either call reaches the same handlers, so the match on the
summary outcome short-circuits exactly where the Python exception would.
`Except.error` models an exception propagating to the caller. -/
def fetch_wikipedia_summary (svc : WikiService) (topic : String) :
    Except String String × List WikiCall :=
  match svc.summary topic 5 true true with
  | .disambiguation opts =>
      (.ok (ambiguousMsg topic opts), [.summaryCall topic 5 true true])
  | .pageError =>
      (.ok (notFoundMsg topic), [.summaryCall topic 5 true true])
  | .otherError m =>
      (.error (wrappedErrMsg m), [.summaryCall topic 5 true true])
  | .ok summary =>
      let calls := [WikiCall.summaryCall topic 5 true true,
                    WikiCall.pageCall topic true true]
      match svc.page topic true true with
      | .disambiguation opts => (.ok (ambiguousMsg topic opts), calls)
      | .pageError => (.ok (notFoundMsg topic), calls)
      | .otherError m => (.error (wrappedErrMsg m), calls)
      | .ok page =>
          let result := "Summary for '" ++ topic ++ "':\n\n" ++ summary ++
            "\n\nLinks:\n"
          let result := (page.links.take 10).foldl
            (fun r link => r ++ ("- " ++ link ++ "\n")) result
          (.ok result, calls)

/-- The fully rendered success output: header, blank line, summary text,
`Links:` section header, then one `- `-prefixed line per listed link. -/
def successMsg (topic summary : String) (links : List String) : String :=
  "Summary for '" ++ topic ++ "':\n\n" ++ summary ++ "\n\nLinks:\n" ++
    String.join ((links.take 10).map (fun link => "- " ++ link ++ "\n"))

/-- The lines of a character sequence, split at every newline character;
mirrors how a reader of the rendered output divides it into lines. -/
def charLines : List Char → List (List Char)
  | [] => [[]]
  | c :: rest =>
      if c = '\n' then [] :: charLines rest
      else
        match charLines rest with
        | l :: ls => (c :: l) :: ls
        | [] => [[c]]

/-- A rendered output has a `Links:` section when one of its lines is
exactly the section header `Links:` that the success branch emits. -/
def hasLinksSection (s : String) : Prop :=
  "Links:".data ∈ charLines s.data

instance (s : String) : Decidable (hasLinksSection s) := by
  unfold hasLinksSection; infer_instance

/-- Failure of `open(path, "r")`: the file does not exist. -/
inductive FileError where
  | notFound (path : String)
deriving Repr, DecidableEq

/-- The components of a path: its character sequence split at every
`/`. -/
def splitSlash : List Char → List (List Char)
  | [] => [[]]
  | c :: rest =>
      if c = '/' then [] :: splitSlash rest
      else
        match splitSlash rest with
        | l :: ls => (c :: l) :: ls
        | [] => [[c]]

/-- POSIX resolution of an absolute path: split on `/`, drop empty and
`.` components, let `..` remove the preceding component (staying at the
root when there is none). Models how the operating system locates the
file that a path containing `..` designates. -/
def resolvePath (p : String) : String :=
  "/" ++ pyJoin "/"
    (((splitSlash p.data).map (fun cs => String.mk cs)).foldl
      (fun acc c =>
        if c = "" ∨ c = "." then acc
        else if c = ".." then acc.dropLast
        else acc ++ [c]) [])

/-- `os.path.join(a, b)` for POSIX paths: `b` when `b` is absolute,
otherwise `a` and `b` joined with a single separator. -/
def osPathJoin (a b : String) : String :=
  if b.data.head? = some '/' then b
  else if a = "" ∨ a.data.getLast? = some '/' then a ++ b
  else a ++ "/" ++ b

/-- The path `fetch_instructions` builds (src/main.py lines 152-153):
`os.path.join(script_dir, "prompts", f"{prompt_name}.md")`. -/
def promptPath (scriptDir prompt_name : String) : String :=
  osPathJoin (osPathJoin scriptDir "prompts") (prompt_name ++ ".md")

/-- `open(path, "r").read()` against a filesystem `fs` mapping resolved
absolute paths to file contents: returns the contents when the file the
path designates exists, and raises `FileNotFoundError` otherwise. -/
def openRead (fs : String → Option String) (path : String) :
    Except FileError String :=
  match fs (resolvePath path) with
  | some contents => .ok contents
  | none => .error (.notFound path)

/-- Translation of `fetch_instructions` (src/main.py lines 139-155).
`scriptDir` stands for `os.path.dirname(__file__)` and `fs` for the
filesystem the process sees. -/
def fetch_instructions (fs : String → Option String)
    (scriptDir prompt_name : String) : Except FileError String :=
  openRead fs (promptPath scriptDir prompt_name)

/-- A lookup service on which both calls succeed for every topic. -/
def svcOk : WikiService :=
  ⟨fun _ _ _ _ => .ok "Mercury is a planet.",
   fun _ _ _ => .ok ⟨["Sun", "Venus"]⟩⟩

/-- A lookup service on which the summary call raises `PageError` for
every topic. -/
def svcSummaryFails : WikiService :=
  ⟨fun _ _ _ _ => .pageError, fun _ _ _ => .ok ⟨[]⟩⟩

/-- A lookup service on which the summary call raises
`DisambiguationError` for every topic. -/
def svcAmbig : WikiService :=
  ⟨fun _ _ _ _ => .disambiguation ["Mercury (planet)", "Mercury (element)"],
   fun _ _ _ => .ok ⟨[]⟩⟩

/-- A lookup service on which the summary call fails with an unexpected
error for every topic. -/
def svcOther : WikiService :=
  ⟨fun _ _ _ _ => .otherError "connection reset",
   fun _ _ _ => .ok ⟨[]⟩⟩

/-- A lookup service whose page record has an empty link list. -/
def svcNoLinks : WikiService :=
  ⟨fun _ _ _ _ => .ok "An obscure stub article.",
   fun _ _ _ => .ok ⟨[]⟩⟩

/-- A filesystem holding one file outside the prompts directory. -/
def fsSecret : String → Option String :=
  fun p => if p = "/app/secret.md" then some "top secret" else none

/-- A filesystem holding exactly the server's prompt file. -/
def fsPrompts : String → Option String :=
  fun p => if p = "/app/prompts/server_instructions.md" then
    some "Use the tools." else none

theorem foldl_str_append (l : List String) (a b : String) :
    l.foldl (fun r s => r ++ s) (a ++ b) =
      a ++ l.foldl (fun r s => r ++ s) b := by
  induction l generalizing b with
  | nil => rfl
  | cons x xs ih => simp only [List.foldl_cons, String.append_assoc, ih]

theorem join_cons (x : String) (l : List String) :
    String.join (x :: l) = x ++ String.join l := by
  have hx : ("" : String) ++ x = x ++ "" :=
    String.ext (by simp)
  show l.foldl (fun r s => r ++ s) ("" ++ x) = x ++ l.foldl (fun r s => r ++ s) ""
  rw [hx, foldl_str_append]

theorem foldl_link_lines (xs : List String) (init : String) :
    xs.foldl (fun r link => r ++ ("- " ++ link ++ "\n")) init =
      init ++ String.join (xs.map (fun link => "- " ++ link ++ "\n")) := by
  induction xs generalizing init with
  | nil => exact (String.append_empty init).symm
  | cons x xs ih =>
      rw [List.foldl_cons, ih, List.map_cons, join_cons]
      simp only [String.append_assoc]

theorem charLines_ne_nil (cs : List Char) : charLines cs ≠ [] := by
  cases cs with
  | nil => simp [charLines]
  | cons c rest =>
      simp only [charLines]
      split
      · simp
      · split <;> simp

theorem charLines_newline_cons (b : List Char) :
    charLines ('\n' :: b) = [] :: charLines b := by
  simp [charLines]

theorem charLines_append (a : List Char) (b : List Char) (ha : '\n' ∉ a)
    (l : List Char) (ls : List (List Char)) (hb : charLines b = l :: ls) :
    charLines (a ++ b) = (a ++ l) :: ls := by
  induction a with
  | nil => simpa using hb
  | cons c cs ih =>
      have hc : ¬(c = '\n') := fun h => ha (h ▸ List.mem_cons_self c cs)
      have ha' : '\n' ∉ cs := fun h => ha (List.mem_cons_of_mem c h)
      simp only [List.cons_append, charLines, if_neg hc]
      rw [List.append_eq, ih ha']

theorem charLines_single (a : List Char) (ha : '\n' ∉ a) :
    charLines a = [a] := by
  have h := charLines_append a [] ha [] [] (by simp [charLines])
  simpa using h

theorem pyJoin_foldl (sep : String) (ys : List String) (a b : String) :
    ys.foldl (fun acc y => acc ++ sep ++ y) (a ++ b) =
      a ++ ys.foldl (fun acc y => acc ++ sep ++ y) b := by
  induction ys generalizing b with
  | nil => rfl
  | cons y ys ih =>
      rw [List.foldl_cons, List.foldl_cons,
        String.append_assoc a b sep, String.append_assoc a (b ++ sep) y]
      exact ih (b ++ sep ++ y)

theorem pyJoin_cons_cons (sep x y : String) (ys : List String) :
    pyJoin sep (x :: y :: ys) = x ++ sep ++ pyJoin sep (y :: ys) := by
  show (y :: ys).foldl (fun acc z => acc ++ sep ++ z) x = _
  rw [List.foldl_cons, pyJoin_foldl sep ys (x ++ sep) y]
  rfl

theorem charLines_pyJoin (l : List String) (hne : l ≠ [])
    (h : ∀ x ∈ l, '\n' ∉ x.data) :
    charLines (pyJoin "\n" l).data = l.map String.data := by
  induction l with
  | nil => exact absurd rfl hne
  | cons x xs ih =>
      cases xs with
      | nil =>
          show charLines x.data = [x.data]
          exact charLines_single _ (h x (List.mem_cons_self x []))
      | cons y ys =>
          rw [pyJoin_cons_cons]
          have hx : '\n' ∉ x.data := h x (List.mem_cons_self x (y :: ys))
          have hrest := ih (by simp)
            (fun z hz => h z (List.mem_cons_of_mem x hz))
          have hdata : (x ++ "\n" ++ pyJoin "\n" (y :: ys)).data =
              x.data ++ ('\n' :: (pyJoin "\n" (y :: ys)).data) := by
            simp only [String.data_append, List.append_assoc]
            rfl
          rw [hdata, charLines_append x.data _ hx [] _
            (charLines_newline_cons _), hrest]
          simp

theorem ambiguousMsg_data (topic : String) (opts : List String) :
    (ambiguousMsg topic opts).data =
      ("Topic '".data ++ topic.data ++
          "' is ambiguous. Possible options:".data) ++
        ('\n' :: (pyJoin "\n" (opts.take 10)).data) := by
  show ("Topic '" ++ topic ++ "' is ambiguous. Possible options:\n" ++
      pyJoin "\n" (opts.take 10)).data = _
  simp only [String.data_append, List.append_assoc]
  rfl

theorem ambiguousMsg_no_links (topic : String) (opts : List String)
    (htopic : '\n' ∉ topic.data)
    (hopts : ∀ o ∈ opts.take 10, '\n' ∉ o.data ∧ o ≠ "Links:") :
    ¬ hasLinksSection (ambiguousMsg topic opts) := by
  have h1 : '\n' ∉ ("Topic '" : String).data := by decide
  have h2 : '\n' ∉ ("' is ambiguous. Possible options:" : String).data := by
    decide
  have hA : '\n' ∉ ("Topic '".data ++ topic.data ++
      "' is ambiguous. Possible options:".data) := by
    simp only [List.mem_append, not_or]
    exact ⟨⟨h1, htopic⟩, h2⟩
  have hha : ("Topic '".data ++ topic.data ++
      "' is ambiguous. Possible options:".data).head? = some 'T' := rfl
  intro hmem
  unfold hasLinksSection at hmem
  rw [ambiguousMsg_data] at hmem
  cases htake : opts.take 10 with
  | nil =>
      rw [htake] at hmem
      rw [charLines_append _ _ hA [] [[]]
        (by simp [pyJoin, charLines])] at hmem
      simp only [List.append_nil, List.mem_cons, List.mem_singleton] at hmem
      rcases hmem with hmem | hmem
      · have := hmem ▸ hha
        simp at this
      · exact absurd hmem (by decide)
  | cons o os =>
      rw [htake] at hmem
      have hopts' : ∀ x ∈ o :: os, '\n' ∉ x.data :=
        fun x hx => (hopts x (htake ▸ hx)).1
      rw [charLines_append _ _ hA [] _
        (charLines_newline_cons _)] at hmem
      rw [charLines_pyJoin (o :: os) (by simp) hopts'] at hmem
      simp only [List.append_nil, List.mem_cons] at hmem
      rcases hmem with hmem | hmem
      · have := hmem ▸ hha
        simp at this
      · rw [List.mem_map] at hmem
        obtain ⟨o', ho', hdo'⟩ := hmem
        exact (hopts o' (htake ▸ ho')).2 (String.ext hdo')

/-- Claim C1: for every topic on which both lookup calls succeed, the
resolver returns the header line naming the topic, a blank line, the
summary text the service returned, the `Links:` section header, and then
the first 10 entries of the page's link list (all of them if fewer)
verbatim and in service order, each on its own line prefixed by `- `. -/
theorem c1_success_format (svc : WikiService) (topic s : String)
    (p : WikiPage) (hs : svc.summary topic 5 true true = .ok s)
    (hp : svc.page topic true true = .ok p) :
    (fetch_wikipedia_summary svc topic).1 =
      .ok (successMsg topic s p.links) := by
  simp only [fetch_wikipedia_summary, hs, hp, successMsg, foldl_link_lines]

/-- Witness for C1 on a concrete service and topic. -/
theorem c1_success_format_witness :
    (fetch_wikipedia_summary svcOk "Mercury").1 =
      .ok (successMsg "Mercury" "Mercury is a planet." ["Sun", "Venus"]) :=
  c1_success_format svcOk "Mercury" "Mercury is a planet."
    ⟨["Sun", "Venus"]⟩ rfl rfl

/-- Claim C2: for every topic on which the lookup reports an ambiguous
match, the resolver returns the message naming the topic followed by at
most 10 of the reported candidate names, one per line; the outcome is an
ordinary return value, not a raised error, and (for newline-free topics
and candidate names that are not literally the header) the result has no
`Links:` section line. -/
theorem c2_ambiguous_format (svc : WikiService) (topic : String)
    (opts : List String)
    (h : svc.summary topic 5 true true = .disambiguation opts ∨
      ∃ s, svc.summary topic 5 true true = .ok s ∧
        svc.page topic true true = .disambiguation opts) :
    (fetch_wikipedia_summary svc topic).1 = .ok (ambiguousMsg topic opts) ∧
    (opts.take 10).length ≤ 10 ∧
    ('\n' ∉ topic.data →
      (∀ o ∈ opts.take 10, '\n' ∉ o.data ∧ o ≠ "Links:") →
      ¬ hasLinksSection (ambiguousMsg topic opts)) := by
  refine ⟨?_, ?_, fun ht ho => ambiguousMsg_no_links topic opts ht ho⟩
  · rcases h with h | ⟨s, hs, hp⟩
    · simp [fetch_wikipedia_summary, h]
    · simp [fetch_wikipedia_summary, hs, hp]
  · rw [List.length_take]
    exact min_le_left _ _

/-- Witness for C2 on a concrete ambiguous topic. -/
theorem c2_ambiguous_format_witness :
    (fetch_wikipedia_summary svcAmbig "Mercury").1 =
      .ok (ambiguousMsg "Mercury"
        ["Mercury (planet)", "Mercury (element)"]) ∧
    ((["Mercury (planet)", "Mercury (element)"] : List String).take 10).length ≤ 10 ∧
    ('\n' ∉ "Mercury".data →
      (∀ o ∈ (["Mercury (planet)", "Mercury (element)"] : List String).take 10,
        '\n' ∉ o.data ∧ o ≠ "Links:") →
      ¬ hasLinksSection (ambiguousMsg "Mercury"
        ["Mercury (planet)", "Mercury (element)"])) :=
  c2_ambiguous_format svcAmbig "Mercury"
    ["Mercury (planet)", "Mercury (element)"] (Or.inl rfl)

/-- Claim C3: for every topic on which the lookup reports that no page
exists, the resolver returns exactly the fixed not-found message naming
the topic, as an ordinary return value rather than a raised error. -/
theorem c3_not_found (svc : WikiService) (topic : String)
    (h : svc.summary topic 5 true true = .pageError ∨
      ∃ s, svc.summary topic 5 true true = .ok s ∧
        svc.page topic true true = .pageError) :
    (fetch_wikipedia_summary svc topic).1 =
      .ok ("No Wikipedia page found for topic '" ++ topic ++ "'.") := by
  rcases h with h | ⟨s, hs, hp⟩
  · simp [fetch_wikipedia_summary, h, notFoundMsg]
  · simp [fetch_wikipedia_summary, hs, hp, notFoundMsg]

/-- Witness for C3 on a concrete missing topic. -/
theorem c3_not_found_witness :
    (fetch_wikipedia_summary svcSummaryFails "Xyzzy").1 =
      .ok ("No Wikipedia page found for topic '" ++ "Xyzzy" ++ "'.") :=
  c3_not_found svcSummaryFails "Xyzzy" (Or.inl rfl)

/-- Claim C4: every lookup failure other than the ambiguous and not-found
cases is re-raised to the caller as a generic failure whose message embeds
the original error text unchanged. -/
theorem c4_other_error (svc : WikiService) (topic m : String)
    (h : svc.summary topic 5 true true = .otherError m ∨
      ∃ s, svc.summary topic 5 true true = .ok s ∧
        svc.page topic true true = .otherError m) :
    (fetch_wikipedia_summary svc topic).1 =
      .error ("Error fetching Wikipedia data: " ++ m) := by
  rcases h with h | ⟨s, hs, hp⟩
  · simp [fetch_wikipedia_summary, h, wrappedErrMsg]
  · simp [fetch_wikipedia_summary, hs, hp, wrappedErrMsg]

/-- Witness for C4 on a concrete unexpected failure. -/
theorem c4_other_error_witness :
    (fetch_wikipedia_summary svcOther "Mercury").1 =
      .error ("Error fetching Wikipedia data: " ++ "connection reset") :=
  c4_other_error svcOther "Mercury" "connection reset" (Or.inl rfl)

/-- Claim C5: for every prompt name, `fetch_instructions` returns the
verbatim contents of the file at `prompts/<name>.md` (relative to the
script directory) when that file exists, and fails with a
file-not-found error exactly when it does not. -/
theorem c5_fetch_instructions (fs : String → Option String)
    (scriptDir prompt_name : String) :
    (∀ c, fs (resolvePath (promptPath scriptDir prompt_name)) = some c →
      fetch_instructions fs scriptDir prompt_name = .ok c) ∧
    (fs (resolvePath (promptPath scriptDir prompt_name)) = none →
      fetch_instructions fs scriptDir prompt_name =
        .error (.notFound (promptPath scriptDir prompt_name))) := by
  constructor
  · intro c hc
    show (match fs (resolvePath (promptPath scriptDir prompt_name)) with
      | some contents => Except.ok contents
      | none => Except.error
          (FileError.notFound (promptPath scriptDir prompt_name))) =
      Except.ok c
    rw [hc]
  · intro hn
    show (match fs (resolvePath (promptPath scriptDir prompt_name)) with
      | some contents => Except.ok contents
      | none => Except.error
          (FileError.notFound (promptPath scriptDir prompt_name))) =
      Except.error (FileError.notFound (promptPath scriptDir prompt_name))
    rw [hn]

/-- Witness for C5: the existing prompt file is returned verbatim and a
missing one fails with not-found. -/
theorem c5_fetch_instructions_witness :
    fetch_instructions fsPrompts "/app" "server_instructions" =
      .ok "Use the tools." ∧
    fetch_instructions fsPrompts "/app" "does_not_exist" =
      .error (.notFound (promptPath "/app" "does_not_exist")) :=
  ⟨(c5_fetch_instructions fsPrompts "/app" "server_instructions").1
      "Use the tools." rfl,
   (c5_fetch_instructions fsPrompts "/app" "does_not_exist").2 rfl⟩

/-- Claim C6 as stated is false: when the summary call raises, the
invocation performs only one lookup call, not two. -/
theorem c6_counterexample :
    (fetch_wikipedia_summary svcSummaryFails "Mercury").2.length = 1 ∧
    ¬ (fetch_wikipedia_summary svcSummaryFails "Mercury").2.length = 2 := by
  exact ⟨rfl, by decide⟩

/-- Claim C6 (amended): an invocation performs at most two lookup calls —
the summary request and, exactly when that request succeeds, a page
request for the same topic string. -/
theorem c6_amended_calls (svc : WikiService) (topic : String) :
    (fetch_wikipedia_summary svc topic).2 =
      match svc.summary topic 5 true true with
      | .ok _ => [.summaryCall topic 5 true true, .pageCall topic true true]
      | _ => [.summaryCall topic 5 true true] := by
  cases h : svc.summary topic 5 true true with
  | ok s =>
      cases hp : svc.page topic true true <;>
        simp [fetch_wikipedia_summary, h, hp]
  | disambiguation opts => simp [fetch_wikipedia_summary, h]
  | pageError => simp [fetch_wikipedia_summary, h]
  | otherError m => simp [fetch_wikipedia_summary, h]

/-- Claim C7 as stated is false: the empty topic is not rejected by any
non-emptiness validation — it reaches the lookup calls and produces an
ordinary rendered result. -/
theorem c7_counterexample :
    (fetch_wikipedia_summary svcOk "").2 =
      [.summaryCall "" 5 true true, .pageCall "" true true] ∧
    (fetch_wikipedia_summary svcOk "").1 =
      .ok "Summary for '':\n\nMercury is a planet.\n\nLinks:\n- Sun\n- Venus\n" :=
  ⟨rfl, rfl⟩

/-- Claim C7 (amended): no validation of the topic is performed at all —
every topic string, empty or not, is passed unmodified to the summary
lookup as the first outbound call. -/
theorem c7_amended_no_validation (svc : WikiService) (topic : String) :
    (fetch_wikipedia_summary svc topic).2.head? =
      some (.summaryCall topic 5 true true) := by
  cases h : svc.summary topic 5 true true with
  | ok s =>
      cases hp : svc.page topic true true <;>
        simp [fetch_wikipedia_summary, h, hp]
  | disambiguation opts => simp [fetch_wikipedia_summary, h]
  | pageError => simp [fetch_wikipedia_summary, h]
  | otherError m => simp [fetch_wikipedia_summary, h]

/-- Claim C8: every invocation produces one of the four complete output
shapes — rendered summary with links, ambiguous-candidates message,
not-found message, or propagated wrapped error — determined by the two
lookup outcomes; in particular a summary obtained before a failing page
call is never emitted without its `Links:` section. -/
theorem c8_complete_shapes (svc : WikiService) (topic : String) :
    (∃ s p, svc.summary topic 5 true true = .ok s ∧
        svc.page topic true true = .ok p ∧
        (fetch_wikipedia_summary svc topic).1 =
          .ok (successMsg topic s p.links)) ∨
    (∃ opts, (svc.summary topic 5 true true = .disambiguation opts ∨
        ∃ s, svc.summary topic 5 true true = .ok s ∧
          svc.page topic true true = .disambiguation opts) ∧
      (fetch_wikipedia_summary svc topic).1 =
        .ok (ambiguousMsg topic opts)) ∨
    ((svc.summary topic 5 true true = .pageError ∨
        ∃ s, svc.summary topic 5 true true = .ok s ∧
          svc.page topic true true = .pageError) ∧
      (fetch_wikipedia_summary svc topic).1 = .ok (notFoundMsg topic)) ∨
    (∃ m, (svc.summary topic 5 true true = .otherError m ∨
        ∃ s, svc.summary topic 5 true true = .ok s ∧
          svc.page topic true true = .otherError m) ∧
      (fetch_wikipedia_summary svc topic).1 = .error (wrappedErrMsg m)) := by
  cases h : svc.summary topic 5 true true with
  | ok s =>
      cases hp : svc.page topic true true with
      | ok p =>
          exact Or.inl ⟨s, p, rfl, rfl, by
            simp [fetch_wikipedia_summary, h, hp, successMsg,
              foldl_link_lines]⟩
      | disambiguation opts =>
          exact Or.inr (Or.inl ⟨opts, Or.inr ⟨s, rfl, rfl⟩, by
            simp [fetch_wikipedia_summary, h, hp]⟩)
      | pageError =>
          exact Or.inr (Or.inr (Or.inl ⟨Or.inr ⟨s, rfl, rfl⟩, by
            simp [fetch_wikipedia_summary, h, hp]⟩))
      | otherError m =>
          exact Or.inr (Or.inr (Or.inr ⟨m, Or.inr ⟨s, rfl, rfl⟩, by
            simp [fetch_wikipedia_summary, h, hp]⟩))
  | disambiguation opts =>
      exact Or.inr (Or.inl ⟨opts, Or.inl rfl, by
        simp [fetch_wikipedia_summary, h]⟩)
  | pageError =>
      exact Or.inr (Or.inr (Or.inl ⟨Or.inl rfl, by
        simp [fetch_wikipedia_summary, h]⟩))
  | otherError m =>
      exact Or.inr (Or.inr (Or.inr ⟨m, Or.inl rfl, by
        simp [fetch_wikipedia_summary, h]⟩))

/-- Claim C9: the prompt name is interpolated into the file path with no
sanitization, so the name `../secret` makes `fetch_instructions` read the
file `/app/secret.md` — whose resolved path does not begin with the
prompts directory prefix `/app/prompts/` — instead of rejecting the
name. -/
theorem c9_path_escape (fs : String → Option String) (c : String)
    (h : fs "/app/secret.md" = some c) :
    promptPath "/app" "../secret" = "/app/prompts/../secret.md" ∧
    resolvePath "/app/prompts/../secret.md" = "/app/secret.md" ∧
    "/app/secret.md".data.take 13 ≠ "/app/prompts/".data ∧
    fetch_instructions fs "/app" "../secret" = .ok c := by
  refine ⟨rfl, rfl, by decide, ?_⟩
  show (match fs (resolvePath (promptPath "/app" "../secret")) with
    | some contents => Except.ok contents
    | none =>
        Except.error (FileError.notFound (promptPath "/app" "../secret"))) =
    Except.ok c
  rw [show resolvePath (promptPath "/app" "../secret") = "/app/secret.md"
    from rfl, h]

/-- Witness for C9 on a concrete filesystem holding a file outside the
prompts directory. -/
theorem c9_path_escape_witness :
    promptPath "/app" "../secret" = "/app/prompts/../secret.md" ∧
    resolvePath "/app/prompts/../secret.md" = "/app/secret.md" ∧
    "/app/secret.md".data.take 13 ≠ "/app/prompts/".data ∧
    fetch_instructions fsSecret "/app" "../secret" = .ok "top secret" :=
  c9_path_escape fsSecret "top secret" rfl

/-- Claim C10: when both lookup calls succeed and the page's link list is
empty, the rendered result still ends with the `Links:` section header,
followed by no entry lines. -/
theorem c10_empty_links (svc : WikiService) (topic s : String)
    (p : WikiPage) (hs : svc.summary topic 5 true true = .ok s)
    (hp : svc.page topic true true = .ok p) (hl : p.links = []) :
    (fetch_wikipedia_summary svc topic).1 =
      .ok ("Summary for '" ++ topic ++ "':\n\n" ++ s ++ "\n\nLinks:\n") := by
  simp [fetch_wikipedia_summary, hs, hp, hl]

/-- Witness for C10 on a concrete page with no links. -/
theorem c10_empty_links_witness :
    (fetch_wikipedia_summary svcNoLinks "Stubtown").1 =
      .ok ("Summary for '" ++ "Stubtown" ++ "':\n\n" ++
        "An obscure stub article." ++ "\n\nLinks:\n") :=
  c10_empty_links svcNoLinks "Stubtown" "An obscure stub article."
    ⟨[]⟩ rfl rfl rfl
